import Mathlib

/-!
Shallow embedding of the Rick & Morty explorer single-page application
(src/src/App.tsx) and proofs of its specified properties.

The application is a single React component.  Its pure parts (the
pagination-range calculator, the status-style lookup, the URL builder)
become Lean functions; its stateful parts (the fetch coordinator and the
event handlers) become explicit state transformers on a UIState record,
with the network modelled as an explicit outcome value.
-/

/-- Embeds the BASE_URL constant of App.tsx. -/
def BASE_URL : String := "https://rickandmortyapi.com/api"

/-- One entry of the ENDPOINTS list of App.tsx. -/
structure Endpoint where
  id : String
  url : String
  label : String
  icon : String
deriving DecidableEq

/-- Embeds the ENDPOINTS constant of App.tsx. -/
def ENDPOINTS : List Endpoint :=
  [ ⟨"character", BASE_URL ++ "/character", "Characters", "👤"⟩,
    ⟨"location", BASE_URL ++ "/location", "Locations", "🌍"⟩,
    ⟨"episode", BASE_URL ++ "/episode", "Episodes", "📺"⟩ ]

/-- The style string of the alive key of STATUS_STYLES. -/
def STATUS_STYLES_alive : String := "bg-emerald-500 shadow-emerald-500/30"

/-- The style string of the dead key of STATUS_STYLES. -/
def STATUS_STYLES_dead : String := "bg-red-500 shadow-red-500/30"

/-- The style string of the unknown key of STATUS_STYLES. -/
def STATUS_STYLES_unknown : String := "bg-gray-500 shadow-gray-500/30"

/-- Embeds indexing into the STATUS_STYLES object of App.tsx: a defined
key yields its style string, any other key yields the JS value undefined,
modelled as none. -/
def STATUS_STYLES_get (k : String) : Option String :=
  if k = "alive" then some STATUS_STYLES_alive
  else if k = "dead" then some STATUS_STYLES_dead
  else if k = "unknown" then some STATUS_STYLES_unknown
  else none

/-- Embeds the status-dot class expression of renderItem in App.tsx:
STATUS_STYLES indexed at the lowercased status, falling back to the
unknown entry when the status is missing or the key is not in the table
(the JS or-default, sound here because all style strings are truthy). -/
def statusDotStyle (status : Option String) : String :=
  (Option.bind status (fun s => STATUS_STYLES_get s.toLower)).getD STATUS_STYLES_unknown

/-- The info object of an API response. -/
structure APIInfo where
  count : Int
  pages : Int
  next : Option String
  prev : Option String
deriving DecidableEq

/-- One entry of the results array of an API response; optional fields of
the TS interface become Option values. -/
structure ResultItem where
  id : Int
  name : String
  status : Option String
  species : Option String
  gender : Option String
  image : Option String
  locationName : Option String
  originName : Option String
  itemType : Option String
  dimension : Option String
  residents : Option (List String)
  characters : Option (List String)
  episode : Option String
  air_date : Option String
  created : String
deriving DecidableEq

/-- The APIResponse interface of App.tsx. -/
structure APIResponse where
  info : APIInfo
  results : List ResultItem
deriving DecidableEq

/-- The UI state held by the App component's useState hooks. -/
structure UIState where
  activeEndpoint : String
  data : Option APIResponse
  currentPage : Int
  isLoading : Bool
  error : Option String
  searchTerm : String
deriving DecidableEq

/-- The initial state of the App component's hooks. -/
def initState : UIState :=
  { activeEndpoint := "character", data := none, currentPage := 1,
    isLoading := false, error := none, searchTerm := "" }

/-- Embeds the derived value totalPages = data?.info?.pages or 1 (the JS
or-default replaces a missing response and a zero page count by 1). -/
def totalPagesOf (s : UIState) : Int :=
  match s.data with
  | none => 1
  | some d => if d.info.pages = 0 then 1 else d.info.pages

/-- A character is kept verbatim by encodeURIComponent exactly when it is
an ASCII letter, an ASCII digit, or one of the unreserved marks. -/
def keepChar (c : Char) : Bool :=
  c.isAlpha || c.isDigit ||
    [ '-', '_', '.', '!', '~', '*', Char.ofNat 39, '(', ')' ].contains c

/-- UTF-8 bytes of a Unicode scalar value. -/
def utf8Bytes (n : Nat) : List Nat :=
  if n < 128 then [n]
  else if n < 2048 then [192 + n / 64, 128 + n % 64]
  else if n < 65536 then [224 + n / 4096, 128 + n / 64 % 64, 128 + n % 64]
  else [240 + n / 262144, 128 + n / 4096 % 64, 128 + n / 64 % 64, 128 + n % 64]

/-- Uppercase hexadecimal digit character of a value below 16. -/
def hexDigitChar (n : Nat) : Char :=
  if n < 10 then Char.ofNat (48 + n) else Char.ofNat (55 + n)

/-- Percent-escape of one byte. -/
def percentByte (b : Nat) : List Char :=
  [ '%', hexDigitChar (b / 16), hexDigitChar (b % 16) ]

/-- Embeds the JS builtin encodeURIComponent: keep unreserved characters,
percent-escape the UTF-8 bytes of every other character. -/
def encodeURIComponent (s : String) : String :=
  String.mk
    ((s.toList.map
      (fun c => if keepChar c then [c] else ((utf8Bytes c.toNat).map percentByte).flatten)).flatten)

/-- Embeds the searchParam expression of fetchData: the empty string when
the search argument is falsy, otherwise the name parameter with the
encoded term. -/
def searchParamOf (search : String) : String :=
  if search = "" then "" else "&name=" ++ encodeURIComponent search

/-- Embeds the url template literal of fetchData. -/
def requestUrl (endpoint : String) (page : Int) (search : String) : String :=
  BASE_URL ++ "/" ++ endpoint ++ "?page=" ++ toString page ++ searchParamOf search

/-- Embeds response.ok of the Fetch API: the status is in the 2xx range. -/
def response_ok (status : Nat) : Bool :=
  decide (200 ≤ status) && decide (status ≤ 299)

/-- Outcome of the awaited fetch call: either the promise resolved with a
status and a parsed JSON body, or it rejected; a rejection carries whether
the thrown value is an Error instance and, when it is, its message. -/
inductive NetResult where
  | ok (status : Nat) (result : APIResponse)
  | netErr (isError : Bool) (msg : String)
deriving DecidableEq

/-- The state after the first two statements of fetchData: the loading
flag is set and the error is cleared before the request is issued. -/
def fetchStart (s : UIState) : UIState :=
  { s with isLoading := true, error := none }

/-- Embeds fetchData of App.tsx as a state transformer given the network
outcome: after fetchStart, a 2xx response stores the parsed body; a
non-2xx response throws Failed to fetch with the status, which the catch
block records while clearing the data; a network-level rejection records
the thrown Error message, or the fixed fallback text when the thrown
value is not an Error; the finally block clears the loading flag. -/
def fetchData (s : UIState) (res : NetResult) : UIState :=
  let s1 := fetchStart s
  match res with
  | NetResult.ok status result =>
      if response_ok status then
        { s1 with data := some result, isLoading := false }
      else
        { s1 with error := some ("Failed to fetch: " ++ toString status),
                  data := none, isLoading := false }
  | NetResult.netErr isError msg =>
      { s1 with error := some (if isError then msg else "An error occurred"),
                data := none, isLoading := false }

/-- Embeds handleEndpointChange of App.tsx. -/
def handleEndpointChange (s : UIState) (endpointId : String) : UIState :=
  { s with activeEndpoint := endpointId, currentPage := 1, searchTerm := "" }

/-- Embeds handleSearch of App.tsx. -/
def handleSearch (s : UIState) (term : String) : UIState :=
  { s with searchTerm := term, currentPage := 1 }

/-- Embeds a click of a numbered page button. -/
def setPageClick (s : UIState) (p : Int) : UIState :=
  { s with currentPage := p }

/-- Embeds the Previous button: setCurrentPage of the maximum of
currentPage minus one and one. -/
def prevClick (s : UIState) : UIState :=
  { s with currentPage := max (s.currentPage - 1) 1 }

/-- Embeds the Next button: setCurrentPage of the minimum of currentPage
plus one and totalPages. -/
def nextClick (s : UIState) : UIState :=
  { s with currentPage := min (s.currentPage + 1) (totalPagesOf s) }

/-- A page marker of the pagination control: a page number or the
ellipsis placeholder. -/
inductive Marker where
  | page (n : Int)
  | ellipsis
deriving DecidableEq

/-- The ascending integer range of a JS for loop from a to b inclusive. -/
def intRange (a b : Int) : List Int :=
  (List.range (max (b - a + 1) 0).toNat).map (fun i => a + (i : Int))

/-- Embeds the paginationRange useMemo computation of App.tsx. -/
def paginationRange (currentPage totalPages : Int) : List Marker :=
  let showEllipsis := totalPages > 7
  if ¬ showEllipsis then
    (intRange 1 totalPages).map Marker.page
  else if currentPage ≤ 4 then
    ((intRange 1 5).map Marker.page) ++ [Marker.ellipsis, Marker.page totalPages]
  else if currentPage ≥ totalPages - 3 then
    Marker.page 1 :: Marker.ellipsis :: (intRange (totalPages - 4) totalPages).map Marker.page
  else
    Marker.page 1 :: Marker.ellipsis ::
      ((intRange (currentPage - 1) (currentPage + 1)).map Marker.page) ++
      [Marker.ellipsis, Marker.page totalPages]

/-- JS truthiness of the error state: a present, non-empty message. -/
def errorTruthy (e : Option String) : Bool :=
  match e with
  | none => false
  | some m => decide (m ≠ "")

/-- Embeds the no-results condition of App.tsx: not data?.results?.length,
true when the response is missing or its results list is empty. -/
def noResultsCond (s : UIState) : Bool :=
  match s.data with
  | none => true
  | some d => decide (d.results.length = 0)

/-- The four mutually exclusive top-level views of the App component. -/
inductive View where
  | errorView
  | loadingView
  | noResults
  | grid
deriving DecidableEq

/-- Embeds the view selection of the App component's render: the error
view when the error is truthy, else the loading view while loading, else
the no-results view when the no-results condition holds, else the grid. -/
def selectView (s : UIState) : View :=
  if errorTruthy s.error then View.errorView
  else if s.isLoading then View.loadingView
  else if noResultsCond s then View.noResults
  else View.grid

/-- The page numbers of a marker list, ellipses dropped. -/
def numsOf : List Marker → List Int
  | [] => []
  | Marker.page n :: rest => n :: numsOf rest
  | Marker.ellipsis :: rest => numsOf rest

/-- Every adjacent pair of the list is strictly increasing. -/
def strictlyIncreasing : List Int → Bool
  | [] => true
  | [_] => true
  | a :: b :: rest => decide (a < b) && strictlyIncreasing (b :: rest)

/-- No two adjacent entries are both the ellipsis marker. -/
def noAdjacentEllipsis : List Marker → Bool
  | Marker.ellipsis :: Marker.ellipsis :: _ => false
  | _ :: rest => noAdjacentEllipsis rest
  | [] => true

/-- A Previous or Next press. -/
inductive PageMove where
  | prev
  | next
deriving DecidableEq

/-- Applies a sequence of Previous and Next presses to the state. -/
def applyMoves (s : UIState) : List PageMove → UIState
  | [] => s
  | PageMove.prev :: rest => applyMoves (prevClick s) rest
  | PageMove.next :: rest => applyMoves (nextClick s) rest

/-- Does one character list occur as a prefix of another. -/
def isPre : List Char → List Char → Bool
  | [], _ => true
  | _ :: _, [] => false
  | p :: ps, c :: cs => decide (p = c) && isPre ps cs

/-- Does the pattern occur as a contiguous substring of the list. -/
def hasSub : List Char → List Char → Bool
  | [], pat => isPre pat []
  | s@(_ :: cs), pat => isPre pat s || hasSub cs pat

/-- Does the URL contain the name query parameter. -/
def urlHasNameParam (url : String) : Bool :=
  hasSub url.toList ("&name=".toList)

/-- The UI states reachable from the initial state through the events the
rendered page offers: switching to a listed endpoint, typing in the
search box (rendered only in the character view), page-button clicks,
Previous and Next presses, and a settled fetch. -/
inductive Reachable : UIState → Prop where
  | init : Reachable initState
  | endpoint (s : UIState) (id : String) :
      Reachable s → id ∈ ENDPOINTS.map Endpoint.id → Reachable (handleEndpointChange s id)
  | search (s : UIState) (term : String) :
      Reachable s → s.activeEndpoint = "character" → Reachable (handleSearch s term)
  | pageClick (s : UIState) (p : Int) :
      Reachable s → Reachable (setPageClick s p)
  | prevPress (s : UIState) :
      Reachable s → Reachable (prevClick s)
  | nextPress (s : UIState) :
      Reachable s → Reachable (nextClick s)
  | fetch (s : UIState) (res : NetResult) :
      Reachable s → Reachable (fetchData s res)

/-- C2: for every pair of integers with 1 <= totalPages <= 7 and
1 <= currentPage <= totalPages, the pagination-range calculator returns
exactly the list of pages 1 through totalPages, with no ellipsis
markers. -/
theorem paginationRange_small (c t : Int) (h1 : 1 ≤ t) (h2 : t ≤ 7)
    (h3 : 1 ≤ c) (h4 : c ≤ t) :
    paginationRange c t = (List.range t.toNat).map (fun i => Marker.page ((i : Int) + 1)) ∧
    Marker.ellipsis ∉ paginationRange c t := by
  interval_cases t <;> interval_cases c <;> exact ⟨by decide, by decide⟩

/-- Witness for C2 at currentPage 2, totalPages 5. -/
theorem paginationRange_small_witness :
    ((1 : Int) ≤ 5 ∧ (5 : Int) ≤ 7 ∧ (1 : Int) ≤ 2 ∧ (2 : Int) ≤ 5) ∧
    (paginationRange 2 5 =
        (List.range (5 : Int).toNat).map (fun i => Marker.page ((i : Int) + 1)) ∧
      Marker.ellipsis ∉ paginationRange 2 5) :=
  ⟨by decide, paginationRange_small 2 5 (by decide) (by decide) (by decide) (by decide)⟩

/-- C3: the pagination-range calculator returns the three concrete
vectors of the spec for totalPages 10 at currentPage 1, 10 and 5. -/
theorem paginationRange_vectors :
    paginationRange 1 10 =
      [Marker.page 1, Marker.page 2, Marker.page 3, Marker.page 4, Marker.page 5,
        Marker.ellipsis, Marker.page 10] ∧
    paginationRange 10 10 =
      [Marker.page 1, Marker.ellipsis, Marker.page 6, Marker.page 7, Marker.page 8,
        Marker.page 9, Marker.page 10] ∧
    paginationRange 5 10 =
      [Marker.page 1, Marker.ellipsis, Marker.page 4, Marker.page 5, Marker.page 6,
        Marker.ellipsis, Marker.page 10] := by
  refine ⟨by decide, by decide, by decide⟩

/-- C5: for every state and chosen resource id, handleEndpointChange sets
the active resource to the chosen id, resets the page to 1 and clears the
search term. -/
theorem handleEndpointChange_resets (s : UIState) (id : String) :
    (handleEndpointChange s id).activeEndpoint = id ∧
    (handleEndpointChange s id).currentPage = 1 ∧
    (handleEndpointChange s id).searchTerm = "" :=
  ⟨rfl, rfl, rfl⟩

/-- C6: for every state and new term, handleSearch sets the search term
to the new value, resets the page to 1 and leaves the active resource
unchanged. -/
theorem handleSearch_resets (s : UIState) (term : String) :
    (handleSearch s term).searchTerm = term ∧
    (handleSearch s term).currentPage = 1 ∧
    (handleSearch s term).activeEndpoint = s.activeEndpoint :=
  ⟨rfl, rfl, rfl⟩

/-- C7: the status-indicator lookup is case-insensitive and total: a
status whose lowercase form is alive, dead or unknown gets that entry's
styling, and every other value, a missing status included, gets the
unknown styling. -/
theorem statusDotStyle_total (status : Option String) :
    statusDotStyle status =
      if status.map String.toLower = some "alive" then STATUS_STYLES_alive
      else if status.map String.toLower = some "dead" then STATUS_STYLES_dead
      else if status.map String.toLower = some "unknown" then STATUS_STYLES_unknown
      else STATUS_STYLES_unknown := by
  cases status with
  | none => rfl
  | some s =>
    simp only [statusDotStyle, Option.some_bind, STATUS_STYLES_get, Option.map_some',
      Option.some.injEq]
    split_ifs <;> simp_all

/-- C1: for every state and network outcome, fetchData sets the loading
flag and clears the error before the request, clears the loading flag in
every outcome; on a 2xx response it stores the parsed body and leaves the
error cleared; on a non-2xx response it clears the data and records a
message containing the status code; on a network-level rejection it
clears the data and records the thrown Error message, or the fixed
fallback text when the thrown value is not an Error. -/
theorem fetchData_contract (s : UIState) (res : NetResult) :
    (fetchStart s).isLoading = true ∧
    (fetchStart s).error = none ∧
    (fetchData s res).isLoading = false ∧
    (∀ status r, res = NetResult.ok status r → response_ok status = true →
      (fetchData s res).data = some r ∧ (fetchData s res).error = none) ∧
    (∀ status r, res = NetResult.ok status r → response_ok status = false →
      (fetchData s res).data = none ∧
      ∃ pre, (fetchData s res).error = some (pre ++ toString status)) ∧
    (∀ isError msg, res = NetResult.netErr isError msg →
      (fetchData s res).data = none ∧
      (fetchData s res).error = some (if isError then msg else "An error occurred")) := by
  refine ⟨rfl, rfl, ?_, ?_, ?_, ?_⟩
  · cases res with
    | ok status r =>
      simp only [fetchData]
      split <;> rfl
    | netErr e m => rfl
  · rintro status r rfl hok
    simp [fetchData, fetchStart, hok]
  · rintro status r rfl hok
    refine ⟨by simp [fetchData, fetchStart, hok], "Failed to fetch: ", ?_⟩
    simp [fetchData, fetchStart, hok]
  · rintro e m rfl
    simp [fetchData, fetchStart]

/-- A response body with an empty results list, for the witnesses. -/
def emptyResponse : APIResponse :=
  { info := { count := 0, pages := 1, next := none, prev := none }, results := [] }

/-- Witness for C1 at the initial state and a 200 response. -/
theorem fetchData_contract_witness :
    response_ok 200 = true ∧
    (fetchData initState (NetResult.ok 200 emptyResponse)).data = some emptyResponse ∧
    (fetchData initState (NetResult.ok 200 emptyResponse)).error = none :=
  ⟨by decide,
    ((fetchData_contract initState (NetResult.ok 200 emptyResponse)).2.2.2.1
      200 emptyResponse rfl (by decide)).1,
    ((fetchData_contract initState (NetResult.ok 200 emptyResponse)).2.2.2.1
      200 emptyResponse rfl (by decide)).2⟩

/-- C8: a 2xx response with an empty results list puts the application in
the no-results state, not the error state: the dataset is the response,
the error stays cleared, and the view selected is the no-results view. -/
theorem emptyResults_noResults (s : UIState) (status : Nat) (r : APIResponse)
    (hok : response_ok status = true) (hempty : r.results = []) :
    (fetchData s (NetResult.ok status r)).data = some r ∧
    (fetchData s (NetResult.ok status r)).error = none ∧
    selectView (fetchData s (NetResult.ok status r)) = View.noResults ∧
    selectView (fetchData s (NetResult.ok status r)) ≠ View.errorView := by
  have hd : fetchData s (NetResult.ok status r) =
      { s with data := some r, isLoading := false, error := none } := by
    simp [fetchData, fetchStart, hok]
  rw [hd]
  refine ⟨rfl, rfl, ?_, ?_⟩ <;>
    simp [selectView, errorTruthy, noResultsCond, hempty]

/-- Witness for C8 at the initial state, a 200 status and an empty
response body. -/
theorem emptyResults_noResults_witness :
    (response_ok 200 = true ∧ emptyResponse.results = []) ∧
    ((fetchData initState (NetResult.ok 200 emptyResponse)).data = some emptyResponse ∧
     (fetchData initState (NetResult.ok 200 emptyResponse)).error = none ∧
     selectView (fetchData initState (NetResult.ok 200 emptyResponse)) = View.noResults ∧
     selectView (fetchData initState (NetResult.ok 200 emptyResponse)) ≠ View.errorView) :=
  ⟨⟨by decide, rfl⟩, emptyResults_noResults initState 200 emptyResponse (by decide) rfl⟩

/-- Counterexample to C4 as stated: fetchData's URL construction checks
only whether the search term is non-empty, not which resource is
requested, so the location resource with the term rick gets a name
parameter. -/
theorem searchParam_applied_to_location :
    ("location" : String) ≠ "character" ∧ ("rick" : String) ≠ "" ∧
    urlHasNameParam (requestUrl "location" 1 "rick") = true :=
  ⟨by decide, by decide, by decide⟩

/-- The activeEndpoint component of fetchData's update is unchanged. -/
theorem fetchData_activeEndpoint (s : UIState) (res : NetResult) :
    (fetchData s res).activeEndpoint = s.activeEndpoint := by
  cases res with
  | ok status r =>
    simp only [fetchData]
    split <;> rfl
  | netErr e m => rfl

/-- The searchTerm component of fetchData's update is unchanged. -/
theorem fetchData_searchTerm (s : UIState) (res : NetResult) :
    (fetchData s res).searchTerm = s.searchTerm := by
  cases res with
  | ok status r =>
    simp only [fetchData]
    split <;> rfl
  | netErr e m => rfl

/-- In every reachable UI state whose active resource is not the
character resource, the search term is empty: the search box is rendered
only in the character view and switching resource clears the term. -/
theorem reachable_searchTerm_empty (s : UIState) (h : Reachable s) :
    s.activeEndpoint ≠ "character" → s.searchTerm = "" := by
  induction h with
  | init => intro hne; exact absurd rfl hne
  | endpoint s id hr hmem ih => intro hne; rfl
  | search s term hr hchar ih => intro hne; exact absurd hchar hne
  | pageClick s p hr ih => intro hne; exact ih hne
  | prevPress s hr ih => intro hne; exact ih hne
  | nextPress s hr ih => intro hne; exact ih hne
  | fetch s res hr ih =>
    intro hne
    rw [fetchData_activeEndpoint] at hne
    rw [fetchData_searchTerm]
    exact ih hne

/-- C4 amended: fetchData itself appends the name parameter for any
resource whenever the search term is non-empty; the restriction to the
character resource holds one level up: in every reachable UI state whose
active resource is not the character resource the search term is empty,
so the URL the effect requests carries no name parameter, being the same
URL as with an empty search term. -/
theorem requestUrl_no_name_for_non_character (s : UIState) (h : Reachable s)
    (hne : s.activeEndpoint ≠ "character") :
    s.searchTerm = "" ∧
    searchParamOf s.searchTerm = "" ∧
    requestUrl s.activeEndpoint s.currentPage s.searchTerm =
      requestUrl s.activeEndpoint s.currentPage "" := by
  have he := reachable_searchTerm_empty s h hne
  exact ⟨he, by rw [he]; rfl, by rw [he]⟩

/-- Witness for the amended C4 at the state reached by switching from the
initial state to the location resource. -/
theorem requestUrl_no_name_witness :
    (handleEndpointChange initState "location").activeEndpoint ≠ "character" ∧
    ((handleEndpointChange initState "location").searchTerm = "" ∧
     searchParamOf (handleEndpointChange initState "location").searchTerm = "" ∧
     requestUrl (handleEndpointChange initState "location").activeEndpoint
         (handleEndpointChange initState "location").currentPage
         (handleEndpointChange initState "location").searchTerm =
       requestUrl (handleEndpointChange initState "location").activeEndpoint
         (handleEndpointChange initState "location").currentPage "") :=
  ⟨by decide,
    requestUrl_no_name_for_non_character _
      (Reachable.endpoint initState "location" Reachable.init (by decide))
      (by decide)⟩

/-- The Previous button leaves the loaded data, hence totalPages,
unchanged. -/
theorem prevClick_totalPages (s : UIState) : totalPagesOf (prevClick s) = totalPagesOf s := rfl

/-- The Next button leaves the loaded data, hence totalPages,
unchanged. -/
theorem nextClick_totalPages (s : UIState) : totalPagesOf (nextClick s) = totalPagesOf s := rfl

/-- Any sequence of Previous and Next presses keeps the current page
inside the closed interval from 1 to totalPages. -/
theorem applyMoves_bounds (ms : List PageMove) :
    ∀ s : UIState, 1 ≤ s.currentPage → s.currentPage ≤ totalPagesOf s →
      1 ≤ (applyMoves s ms).currentPage ∧
      (applyMoves s ms).currentPage ≤ totalPagesOf (applyMoves s ms) := by
  induction ms with
  | nil => intro s h1 h2; exact ⟨h1, h2⟩
  | cons m rest ih =>
    intro s h1 h2
    cases m with
    | prev =>
      simp only [applyMoves]
      apply ih
      · show 1 ≤ max (s.currentPage - 1) 1
        exact le_max_right _ _
      · rw [prevClick_totalPages]
        show max (s.currentPage - 1) 1 ≤ totalPagesOf s
        exact max_le (by omega) (by omega)
    | next =>
      simp only [applyMoves]
      apply ih
      · show 1 ≤ min (s.currentPage + 1) (totalPagesOf s)
        exact le_min (by omega) (by omega)
      · rw [nextClick_totalPages]
        show min (s.currentPage + 1) (totalPagesOf s) ≤ totalPagesOf s
        exact min_le_right _ _

/-- C10: the Previous press sets the page to the maximum of the page
minus one and 1, the Next press to the minimum of the page plus one and
totalPages, and starting from any page between 1 and totalPages, any
sequence of Previous and Next presses keeps the page in that interval. -/
theorem pageClamp_invariant (s : UIState) (ms : List PageMove)
    (h1 : 1 ≤ s.currentPage) (h2 : s.currentPage ≤ totalPagesOf s) :
    (prevClick s).currentPage = max (s.currentPage - 1) 1 ∧
    (nextClick s).currentPage = min (s.currentPage + 1) (totalPagesOf s) ∧
    1 ≤ (applyMoves s ms).currentPage ∧
    (applyMoves s ms).currentPage ≤ totalPagesOf (applyMoves s ms) :=
  ⟨rfl, rfl, (applyMoves_bounds ms s h1 h2).1, (applyMoves_bounds ms s h1 h2).2⟩

/-- Witness for C10 at the initial state and a Next press followed by a
Previous press. -/
theorem pageClamp_invariant_witness :
    ((1 : Int) ≤ initState.currentPage ∧ initState.currentPage ≤ totalPagesOf initState) ∧
    ((prevClick initState).currentPage = max (initState.currentPage - 1) 1 ∧
     (nextClick initState).currentPage = min (initState.currentPage + 1) (totalPagesOf initState) ∧
     1 ≤ (applyMoves initState [PageMove.next, PageMove.prev]).currentPage ∧
     (applyMoves initState [PageMove.next, PageMove.prev]).currentPage ≤
       totalPagesOf (applyMoves initState [PageMove.next, PageMove.prev])) :=
  ⟨by decide,
    pageClamp_invariant initState [PageMove.next, PageMove.prev] (by decide) (by decide)⟩

/-- The inclusive integer range of width five as an explicit list. -/
theorem intRange_shift5 (a b : Int) (h : b = a + 4) :
    intRange a b = [a, a + 1, a + 2, a + 3, a + 4] := by
  subst h
  simp only [intRange]
  have h5 : (max (a + 4 - a + 1) 0).toNat = 5 := by
    have h : a + 4 - a + 1 = 5 := by ring
    rw [h]; rfl
  rw [h5, show List.range 5 = [0, 1, 2, 3, 4] from by decide]
  norm_num

/-- The inclusive integer range of width three as an explicit list. -/
theorem intRange_shift3 (a b : Int) (h : b = a + 2) :
    intRange a b = [a, a + 1, a + 2] := by
  subst h
  simp only [intRange]
  have h3 : (max (a + 2 - a + 1) 0).toNat = 3 := by
    have h : a + 2 - a + 1 = 3 := by ring
    rw [h]; rfl
  rw [h3, show List.range 3 = [0, 1, 2] from by decide]
  norm_num

/-- The pagination range near the start: pages 1 to 5, an ellipsis, and
the last page. -/
theorem paginationRange_low (c t : Int) (ht : t > 7) (hc : c ≤ 4) :
    paginationRange c t = [Marker.page 1, Marker.page 2, Marker.page 3, Marker.page 4,
      Marker.page 5, Marker.ellipsis, Marker.page t] := by
  simp only [paginationRange]
  rw [if_neg (by omega), if_pos hc,
    show intRange 1 5 = [1, 2, 3, 4, 5] from by decide]
  rfl

/-- The pagination range near the end: the first page, an ellipsis, and
the last five pages. -/
theorem paginationRange_high (c t : Int) (ht : t > 7) (hc4 : ¬ c ≤ 4) (hc : c ≥ t - 3) :
    paginationRange c t = [Marker.page 1, Marker.ellipsis, Marker.page (t - 4),
      Marker.page (t - 4 + 1), Marker.page (t - 4 + 2), Marker.page (t - 4 + 3),
      Marker.page (t - 4 + 4)] := by
  simp only [paginationRange]
  rw [if_neg (by omega), if_neg hc4, if_pos hc, intRange_shift5 (t - 4) t (by omega)]
  rfl

/-- The pagination range in the middle: the first page, an ellipsis, the
three pages around the current one, an ellipsis, and the last page. -/
theorem paginationRange_mid (c t : Int) (ht : t > 7) (hc4 : ¬ c ≤ 4) (hc : ¬ c ≥ t - 3) :
    paginationRange c t = [Marker.page 1, Marker.ellipsis, Marker.page (c - 1),
      Marker.page (c - 1 + 1), Marker.page (c - 1 + 2), Marker.ellipsis, Marker.page t] := by
  simp only [paginationRange]
  rw [if_neg (by omega), if_neg hc4, if_neg hc, intRange_shift3 (c - 1) (c + 1) (by omega)]
  rfl

/-- C9: for every totalPages at least 1 and currentPage between 1 and
totalPages, the pagination range's numeric entries are strictly
increasing, its first entry is page 1, its last entry is the last page,
the current page appears, and no two ellipsis markers are adjacent. -/
theorem paginationRange_invariants (c t : Int) (h1 : 1 ≤ t) (h2 : 1 ≤ c) (h3 : c ≤ t) :
    strictlyIncreasing (numsOf (paginationRange c t)) = true ∧
    (paginationRange c t).head? = some (Marker.page 1) ∧
    (paginationRange c t).getLast? = some (Marker.page t) ∧
    Marker.page c ∈ paginationRange c t ∧
    noAdjacentEllipsis (paginationRange c t) = true := by
  by_cases ht : t > 7
  · by_cases hc4 : c ≤ 4
    · rw [paginationRange_low c t ht hc4]
      refine ⟨?_, rfl, rfl, ?_, rfl⟩
      · simp [numsOf, strictlyIncreasing] <;> omega
      · simp [List.mem_cons, Marker.page.injEq] <;> omega
    · by_cases hct : c ≥ t - 3
      · rw [paginationRange_high c t ht hc4 hct]
        refine ⟨?_, rfl, ?_, ?_, rfl⟩
        · simp [numsOf, strictlyIncreasing] <;> omega
        · show some (Marker.page (t - 4 + 4)) = some (Marker.page t)
          simp only [Option.some.injEq, Marker.page.injEq]
          omega
        · simp [List.mem_cons, Marker.page.injEq] <;> omega
      · rw [paginationRange_mid c t ht hc4 hct]
        refine ⟨?_, rfl, rfl, ?_, rfl⟩
        · simp [numsOf, strictlyIncreasing] <;> omega
        · simp [List.mem_cons, Marker.page.injEq]
  · have ht7 : t ≤ 7 := by omega
    interval_cases t <;> interval_cases c <;> decide

/-- Witness for C9 at currentPage 5, totalPages 10. -/
theorem paginationRange_invariants_witness :
    ((1 : Int) ≤ 10 ∧ (1 : Int) ≤ 5 ∧ (5 : Int) ≤ 10) ∧
    (strictlyIncreasing (numsOf (paginationRange 5 10)) = true ∧
     (paginationRange 5 10).head? = some (Marker.page 1) ∧
     (paginationRange 5 10).getLast? = some (Marker.page 10) ∧
     Marker.page 5 ∈ paginationRange 5 10 ∧
     noAdjacentEllipsis (paginationRange 5 10) = true) :=
  ⟨by decide, paginationRange_invariants 5 10 (by decide) (by decide) (by decide)⟩
